import Mathlib

/-!
Verification of the SCTP association lifecycle state machine from
`ext/sctp/sctpassociation.c` (gst-plugins-bad fork).

The C code is shallowly embedded: the `GstSctpAssociation` object becomes a
Lean structure, every public operation and every engine-notification handler
becomes a pure function from an association (plus the externally determined
outcomes of engine primitives, passed as parameters) to the updated
association together with a trace of observable effects (state-transition
events emitted by `gst_sctp_association_change_state_unlocked`, engine
primitive invocations, and GObject signal emissions).
-/

namespace SctpAssociation

/-- The `GstSctpAssociationState` enum. -/
inductive SctpAssociationState where
  | new
  | ready
  | connecting
  | connected
  | disconnecting
  | disconnected
  | error
  deriving DecidableEq, Repr

/-- Partial-reliability policy selector (`GstSctpAssociationPartialReliability`). -/
inductive PartialReliability where
  | prNone
  | prTtl
  | prRtx
  | prBuf
  deriving DecidableEq, Repr

/-- usrsctp partial-reliability policy constants. -/
def SCTP_PR_SCTP_NONE : Nat := 0
def SCTP_PR_SCTP_TTL : Nat := 1
def SCTP_PR_SCTP_RTX : Nat := 2
def SCTP_PR_SCTP_BUF : Nat := 3

/-- usrsctp stream-reset event flag bits. -/
def SCTP_STREAM_RESET_INCOMING_SSN : Nat := 1
def SCTP_STREAM_RESET_OUTGOING_SSN : Nat := 2
def SCTP_STREAM_RESET_DENIED : Nat := 4
def SCTP_STREAM_RESET_FAILED : Nat := 8

/-- Byte size of `struct sctp_stream_reset_event` without its trailing
flexible stream-list array (uint16 type, uint16 flags, uint32 length,
uint32 assoc_id). -/
def sizeof_sctp_stream_reset_event : Nat := 12

/-- Observable effects of an operation, in program order: state transitions
performed by the state-transition routine, engine (usrsctp) primitive calls,
and GObject signal emissions. -/
inductive Effect where
  /-- Models `gst_sctp_association_change_state_unlocked` ran, moving `state`
  from the first to the second argument (and emitted the property notify). -/
  | transition (src dst : SctpAssociationState)
  /-- Models `g_signal_emit (..., SIGNAL_STREAM_RESET, 0, streamId)`. -/
  | signalStreamReset (streamId : Nat)
  /-- Models `g_signal_emit (..., SIGNAL_ASSOC_RESTART, 0)`. -/
  | signalAssocRestart
  /-- Models `usrsctp_conninput` forwarding an inbound wire packet of `length` bytes. -/
  | engineConninput (length : Nat)
  /-- Models `usrsctp_sendv` with the packed send descriptor. -/
  | engineSendv (length streamId ppid : Nat) (unordered : Bool)
      (prPolicy prValue : Nat)
  /-- Models `usrsctp_close`. -/
  | engineClose
  /-- Models `usrsctp_shutdown (sock, SHUT_RDWR)`. -/
  | engineShutdown
  /-- Models `usrsctp_setsockopt (..., SCTP_ASSOCINFO, ...)` with `sasoc_asocmaxrxt`. -/
  | engineSetAssocMaxRxt (assocId maxRxt : Nat)
  /-- Models `usrsctp_setsockopt (..., SCTP_PEER_ADDR_PARAMS, ...)` with
  `spp_hbinterval`. -/
  | engineSetHeartbeat (hbInterval : Nat)
  /-- Models `usrsctp_setsockopt (..., SCTP_RESET_STREAMS, ...)` for one stream. -/
  | engineResetStreams (streamId : Nat)
  /-- Models `usrsctp_sysctl_set_sctp_logging_level` / `..._debug_on` pair. -/
  | engineSetDebug (enabled : Bool)
  /-- Models `packet_received_cb` invoked with an inbound application message. -/
  | appPacketReceived (datalen streamId ppid : Nat)
  deriving DecidableEq, Repr

/-- The mutable fields of `GstSctpAssociation`.  The socket handle and the
two callbacks are `Option Nat` (`none` = NULL pointer); the connection
thread is tracked as a liveness flag. -/
structure GstSctpAssociation where
  association_id : Nat
  local_port : Nat
  remote_port : Nat
  sctp_ass_sock : Option Nat
  sctp_assoc_id : Nat
  state : SctpAssociationState
  use_sock_stream : Bool
  aggressive_heartbeat : Bool
  debug_sctp : Bool
  done_connect : Bool
  shutdown : Bool
  packet_out_cb : Option Nat
  packet_received_cb : Option Nat
  connection_thread : Bool
  deriving DecidableEq, Repr

/-- Models `gst_sctp_association_init`: field defaults of a freshly created
association (the association id is set by the construct property). -/
def gst_sctp_association_init (association_id : Nat) : GstSctpAssociation :=
  { association_id := association_id
    local_port := 0
    remote_port := 0
    sctp_ass_sock := none
    sctp_assoc_id := 0
    state := SctpAssociationState.new
    use_sock_stream := false
    aggressive_heartbeat := false
    debug_sctp := false
    done_connect := false
    shutdown := false
    packet_out_cb := none
    packet_received_cb := none
    connection_thread := false }

/-- Models `gst_sctp_association_change_state_unlocked`: the state-transition
routine.  Writes `state` and emits the property-change notification
(recorded as a `transition` effect carrying old and new state). -/
def gst_sctp_association_change_state_unlocked (a : GstSctpAssociation)
    (new_state : SctpAssociationState) : GstSctpAssociation × List Effect :=
  ({ a with state := new_state }, [Effect.transition a.state new_state])

/-- Models `maybe_set_state_to_ready`: fires NEW→READY when both ports are non-zero
and both callbacks are registered. -/
def maybe_set_state_to_ready (a : GstSctpAssociation) :
    GstSctpAssociation × List Effect :=
  if a.state = SctpAssociationState.new ∧ a.local_port ≠ 0 ∧
      a.remote_port ≠ 0 ∧ a.packet_out_cb ≠ none ∧
      a.packet_received_cb ≠ none then
    gst_sctp_association_change_state_unlocked a SctpAssociationState.ready
  else
    (a, [])

/-- Models `gst_sctp_association_set_property` with `PROP_LOCAL_PORT`: refused
(warning, no write) unless state is NEW; on success re-runs the
auto-promotion check. -/
def set_local_port (a : GstSctpAssociation) (p : Nat) :
    GstSctpAssociation × List Effect :=
  if a.state ≠ SctpAssociationState.new then (a, [])
  else maybe_set_state_to_ready { a with local_port := p }

/-- Models `gst_sctp_association_set_property` with `PROP_REMOTE_PORT`. -/
def set_remote_port (a : GstSctpAssociation) (p : Nat) :
    GstSctpAssociation × List Effect :=
  if a.state ≠ SctpAssociationState.new then (a, [])
  else maybe_set_state_to_ready { a with remote_port := p }

/-- Models `gst_sctp_association_set_property` with `PROP_ASSOCIATION_ID`. -/
def set_association_id (a : GstSctpAssociation) (v : Nat) :
    GstSctpAssociation × List Effect :=
  ({ a with association_id := v }, [])

/-- Models `gst_sctp_association_set_property` with `PROP_STATE`: writes the
`state` field directly (`self->state = g_value_get_enum (value)`), in any
current state, without going through the state-transition routine. -/
def set_state_prop (a : GstSctpAssociation) (s : SctpAssociationState) :
    GstSctpAssociation × List Effect :=
  ({ a with state := s }, [])

/-- Models `gst_sctp_association_set_property` with `PROP_USE_SOCK_STREAM`. -/
def set_use_sock_stream (a : GstSctpAssociation) (b : Bool) :
    GstSctpAssociation × List Effect :=
  ({ a with use_sock_stream := b }, [])

/-- Models `gst_sctp_association_set_property` with `PROP_DEBUG_SCTP`. -/
def set_debug_sctp (a : GstSctpAssociation) (b : Bool) :
    GstSctpAssociation × List Effect :=
  ({ a with debug_sctp := b }, [Effect.engineSetDebug b])

/-- Models `gst_sctp_association_set_property` with `PROP_AGGRESSIVE_HEARTBEAT`. -/
def set_aggressive_heartbeat (a : GstSctpAssociation) (b : Bool) :
    GstSctpAssociation × List Effect :=
  ({ a with aggressive_heartbeat := b }, [])

/-- Models `gst_sctp_association_set_on_packet_out`. -/
def gst_sctp_association_set_on_packet_out (a : GstSctpAssociation)
    (cb : Option Nat) : GstSctpAssociation × List Effect :=
  maybe_set_state_to_ready { a with packet_out_cb := cb }

/-- Models `gst_sctp_association_set_on_packet_received`. -/
def gst_sctp_association_set_on_packet_received (a : GstSctpAssociation)
    (cb : Option Nat) : GstSctpAssociation × List Effect :=
  maybe_set_state_to_ready { a with packet_received_cb := cb }

/-- Models `gst_sctp_association_start`.  `sockRes` is the outcome of
`create_sctp_socket` (`none` = socket/option creation failed).  Returns the
updated association, the effect trace, and the boolean result. -/
def gst_sctp_association_start (a : GstSctpAssociation)
    (sockRes : Option Nat) : (GstSctpAssociation × List Effect) × Bool :=
  if a.state ≠ SctpAssociationState.ready ∧
      a.state ≠ SctpAssociationState.disconnected then
    ((a, []), false)
  else
    match sockRes with
    | none =>
        (gst_sctp_association_change_state_unlocked
          { a with sctp_ass_sock := none } SctpAssociationState.error, false)
    | some h =>
        let r := gst_sctp_association_change_state_unlocked
          { a with sctp_ass_sock := some h } SctpAssociationState.connecting
        (({ r.1 with connection_thread := true }, r.2), true)

/-- Models `gst_sctp_association_incoming_packet`: forwards the packet into the
engine only once `done_connect` is set, otherwise discards it. -/
def gst_sctp_association_incoming_packet (a : GstSctpAssociation)
    (length : Nat) : GstSctpAssociation × List Effect :=
  if a.done_connect then (a, [Effect.engineConninput length])
  else (a, [])

/-- Payload-protocol policy code packed into `spa.sendv_prinfo.pr_policy`. -/
def pr_policy_of : PartialReliability → Nat
  | PartialReliability.prNone => SCTP_PR_SCTP_NONE
  | PartialReliability.prTtl => SCTP_PR_SCTP_TTL
  | PartialReliability.prRtx => SCTP_PR_SCTP_RTX
  | PartialReliability.prBuf => SCTP_PR_SCTP_BUF

/-- Models `gst_sctp_association_send_data`.  `engineResult` is the byte count (or
negative error) returned by `usrsctp_sendv`; `wouldBlock` tells whether a
negative result had errno EAGAIN/EWOULDBLOCK (both outcomes return FALSE,
the distinction only selects the log branch). -/
def gst_sctp_association_send_data (a : GstSctpAssociation)
    (length stream_id ppid : Nat) (ordered : Bool)
    (pr : PartialReliability) (reliability_param : Nat)
    (engineResult : Int) : (GstSctpAssociation × List Effect) × Bool :=
  if a.state ≠ SctpAssociationState.connected then
    ((a, []), false)
  else
    let tr := [Effect.engineSendv length stream_id ppid (!ordered)
      (pr_policy_of pr) reliability_param]
    if engineResult < 0 then ((a, tr), false) else ((a, tr), true)

/-- Models `gst_sctp_association_reset_stream`: issues the engine reset only while
CONNECTED, otherwise a silent no-op. -/
def gst_sctp_association_reset_stream (a : GstSctpAssociation)
    (stream_id : Nat) : GstSctpAssociation × List Effect :=
  if a.state = SctpAssociationState.connected then
    (a, [Effect.engineResetStreams stream_id])
  else (a, [])

/-- Models `gst_sctp_association_force_close_unlocked`: closes and nulls the socket
if present, clears `done_connect` and `sctp_assoc_id`.  Never touches
`state`. -/
def gst_sctp_association_force_close_unlocked (a : GstSctpAssociation) :
    GstSctpAssociation × List Effect :=
  let r :=
    if a.sctp_ass_sock ≠ none then
      (({ a with sctp_ass_sock := none } : GstSctpAssociation),
        [Effect.engineClose])
    else (a, [])
  ({ r.1 with done_connect := false, sctp_assoc_id := 0 }, r.2)

/-- Models `gst_sctp_association_force_close` (takes the lock, then the unlocked
variant). -/
def gst_sctp_association_force_close (a : GstSctpAssociation) :
    GstSctpAssociation × List Effect :=
  gst_sctp_association_force_close_unlocked a

/-- Models `gst_sctp_association_disconnect_unlocked`.  From CONNECTED: transition
to DISCONNECTING and, when `try_shutdown` with a stream-mode socket, ask the
engine for an orderly shutdown (the bounded wait only reads/clears the
`shutdown` flag).  Then, whenever the state is DISCONNECTING: join the
connection worker, force-close the socket, and transition to DISCONNECTED. -/
def gst_sctp_association_disconnect_unlocked (a : GstSctpAssociation)
    (try_shutdown : Bool) : GstSctpAssociation × List Effect :=
  let r1 :=
    if a.state = SctpAssociationState.connected then
      let r := gst_sctp_association_change_state_unlocked a
        SctpAssociationState.disconnecting
      if try_shutdown ∧ r.1.use_sock_stream ∧ r.1.sctp_ass_sock ≠ none then
        (({ r.1 with shutdown := false } : GstSctpAssociation),
          r.2 ++ [Effect.engineShutdown])
      else r
    else (a, [])
  if r1.1.state = SctpAssociationState.disconnecting then
    let a2 := { r1.1 with connection_thread := false }
    let r2 := gst_sctp_association_force_close_unlocked a2
    let r3 := gst_sctp_association_change_state_unlocked r2.1
      SctpAssociationState.disconnected
    (r3.1, r1.2 ++ r2.2 ++ r3.2)
  else r1

/-- Models `gst_sctp_association_disconnect`: the public graceful disconnect. -/
def gst_sctp_association_disconnect (a : GstSctpAssociation) :
    GstSctpAssociation × List Effect :=
  gst_sctp_association_disconnect_unlocked a true

/-- Models `_apply_aggressive_heartbeat_unlocked`: engine calls issued iff the
`aggressive_heartbeat` flag is set. -/
def _apply_aggressive_heartbeat_unlocked (a : GstSctpAssociation) :
    List Effect :=
  if a.aggressive_heartbeat then
    [Effect.engineSetAssocMaxRxt a.sctp_assoc_id 1,
      Effect.engineSetHeartbeat 10]
  else []

/-- Models `handle_sctp_comm_up`: from CONNECTING, capture the engine association
id, apply aggressive-heartbeat parameters, transition to CONNECTED; from
CONNECTED or any other state, log and ignore. -/
def handle_sctp_comm_up (a : GstSctpAssociation) (sac_assoc_id : Nat) :
    GstSctpAssociation × List Effect :=
  if a.state = SctpAssociationState.connecting then
    let a1 := { a with sctp_assoc_id := sac_assoc_id }
    let tr1 := _apply_aggressive_heartbeat_unlocked a1
    let r := gst_sctp_association_change_state_unlocked a1
      SctpAssociationState.connected
    (r.1, tr1 ++ r.2)
  else (a, [])

/-- Models `handle_sctp_comm_lost_or_shutdown`: runs the disconnect sequence
without attempting the shutdown handshake. -/
def handle_sctp_comm_lost_or_shutdown (a : GstSctpAssociation) :
    GstSctpAssociation × List Effect :=
  gst_sctp_association_disconnect_unlocked a false

/-- Models `struct sctp_assoc_change` restricted to the fields the handler reads:
the `sac_state` discriminator (with the engine association id carried by
SCTP_COMM_UP). -/
inductive SctpAssocChange where
  | commUp (sac_assoc_id : Nat)
  | commLost
  | sacRestart
  | shutdownComp
  | cantStrAssoc
  deriving DecidableEq, Repr

/-- Models `handle_association_changed`: dispatch on `sac_state`. -/
def handle_association_changed (a : GstSctpAssociation)
    (sac : SctpAssocChange) : GstSctpAssociation × List Effect :=
  match sac with
  | SctpAssocChange.commUp sacId => handle_sctp_comm_up a sacId
  | SctpAssocChange.commLost => handle_sctp_comm_lost_or_shutdown a
  | SctpAssocChange.sacRestart => (a, [Effect.signalAssocRestart])
  | SctpAssocChange.shutdownComp => handle_sctp_comm_lost_or_shutdown a
  | SctpAssocChange.cantStrAssoc => (a, [])

/-- Models `struct sctp_stream_reset_event` fields read by the handler. -/
structure SctpStreamResetEvent where
  strreset_flags : Nat
  strreset_length : Nat
  strreset_stream_list : List Nat
  deriving DecidableEq, Repr

/-- Models `handle_stream_reset_event`: unless the (twice-tested) DENIED flag is
set, emit one stream-reset signal per listed stream index when the event
carries the INCOMING_SSN direction flag. -/
def handle_stream_reset_event (a : GstSctpAssociation)
    (sr : SctpStreamResetEvent) : GstSctpAssociation × List Effect :=
  if sr.strreset_flags &&& SCTP_STREAM_RESET_DENIED = 0 ∧
      sr.strreset_flags &&& SCTP_STREAM_RESET_DENIED = 0 then
    let n := (sr.strreset_length - sizeof_sctp_stream_reset_event) / 2
    (a, (List.range n).filterMap fun i =>
      if sr.strreset_flags &&& SCTP_STREAM_RESET_INCOMING_SSN ≠ 0 then
        some (Effect.signalStreamReset (sr.strreset_stream_list.getD i 0))
      else none)
  else (a, [])

/-- Models `handle_message`: dispatch an inbound application message to the
registered receive callback, if any. -/
def handle_message (a : GstSctpAssociation)
    (datalen stream_id ppid : Nat) : GstSctpAssociation × List Effect :=
  if a.packet_received_cb ≠ none then
    (a, [Effect.appPacketReceived datalen stream_id ppid])
  else (a, [])

/-- Models `receive_cb` with NULL data: graceful shutdown handshake complete. -/
def receive_cb_null_data (a : GstSctpAssociation) :
    GstSctpAssociation × List Effect :=
  ({ a with shutdown := true }, [])

/-- Models `client_role_connect` (the body of `connection_thread_func`), with the
outcomes of `usrsctp_bind` (after the EADDRINUSE retry loop) and
`usrsctp_connect` passed in.  Sets `done_connect` only when both succeed. -/
def client_role_connect (a : GstSctpAssociation)
    (bindOk connectOk : Bool) : GstSctpAssociation × List Effect :=
  if bindOk then
    if connectOk then ({ a with done_connect := true }, [])
    else (a, [])
  else (a, [])

/-- One public operation or engine notification, together with the
externally determined outcomes of the engine primitives it invokes. -/
inductive Op where
  | setAssociationId (v : Nat)
  | setLocalPort (p : Nat)
  | setRemotePort (p : Nat)
  | setStateProp (s : SctpAssociationState)
  | setUseSockStream (b : Bool)
  | setDebugSctp (b : Bool)
  | setAggressiveHeartbeat (b : Bool)
  | setOnPacketOut (cb : Option Nat)
  | setOnPacketReceived (cb : Option Nat)
  | startOp (sockRes : Option Nat)
  | incomingPacket (length : Nat)
  | sendData (length stream_id ppid : Nat) (ordered : Bool)
      (pr : PartialReliability) (reliability_param : Nat) (engineResult : Int)
  | resetStream (stream_id : Nat)
  | forceClose
  | disconnectOp
  | assocChanged (sac : SctpAssocChange)
  | streamResetEvent (sr : SctpStreamResetEvent)
  | nullDataDelivery
  | messageDelivery (datalen stream_id ppid : Nat)
  | workerFinish (bindOk connectOk : Bool)
  deriving DecidableEq, Repr

/-- Whether an operation is the direct `PROP_STATE` property write. -/
def Op.isSetStateProp : Op → Bool
  | Op.setStateProp _ => true
  | _ => false

/-- Interpret one operation against an association, yielding the updated
association and its effect trace. -/
def step (a : GstSctpAssociation) : Op → GstSctpAssociation × List Effect
  | Op.setAssociationId v => set_association_id a v
  | Op.setLocalPort p => set_local_port a p
  | Op.setRemotePort p => set_remote_port a p
  | Op.setStateProp s => set_state_prop a s
  | Op.setUseSockStream b => set_use_sock_stream a b
  | Op.setDebugSctp b => set_debug_sctp a b
  | Op.setAggressiveHeartbeat b => set_aggressive_heartbeat a b
  | Op.setOnPacketOut cb => gst_sctp_association_set_on_packet_out a cb
  | Op.setOnPacketReceived cb => gst_sctp_association_set_on_packet_received a cb
  | Op.startOp sockRes => (gst_sctp_association_start a sockRes).1
  | Op.incomingPacket length => gst_sctp_association_incoming_packet a length
  | Op.sendData length sid ppid ord pr param res =>
      (gst_sctp_association_send_data a length sid ppid ord pr param res).1
  | Op.resetStream sid => gst_sctp_association_reset_stream a sid
  | Op.forceClose => gst_sctp_association_force_close a
  | Op.disconnectOp => gst_sctp_association_disconnect a
  | Op.assocChanged sac => handle_association_changed a sac
  | Op.streamResetEvent sr => handle_stream_reset_event a sr
  | Op.nullDataDelivery => receive_cb_null_data a
  | Op.messageDelivery datalen sid ppid => handle_message a datalen sid ppid
  | Op.workerFinish bindOk connectOk => client_role_connect a bindOk connectOk

/-- Run a sequence of operations, concatenating the effect traces. -/
def runOps (a : GstSctpAssociation) : List Op → GstSctpAssociation × List Effect
  | [] => (a, [])
  | op :: rest =>
      let r1 := step a op
      let r2 := runOps r1.1 rest
      (r2.1, r1.2 ++ r2.2)

/-- The state transitions recorded in an effect trace, in order. -/
def transOf : List Effect →
    List (SctpAssociationState × SctpAssociationState)
  | [] => []
  | Effect.transition s t :: rest => (s, t) :: transOf rest
  | _ :: rest => transOf rest

/-- Models `chainB s l t`: the transition list `l` forms a contiguous chain from
`s` to `t` (so in particular, an empty list means `s = t`). -/
def chainB : SctpAssociationState →
    List (SctpAssociationState × SctpAssociationState) →
    SctpAssociationState → Bool
  | s, [], t => s = t
  | s, (x, y) :: rest, t => s = x && chainB y rest t

/-- The transition table of spec §4.1. -/
def specEdge (s t : SctpAssociationState) : Bool :=
  match s, t with
  | SctpAssociationState.new, SctpAssociationState.ready => true
  | SctpAssociationState.ready, SctpAssociationState.connecting => true
  | SctpAssociationState.ready, SctpAssociationState.error => true
  | SctpAssociationState.disconnected, SctpAssociationState.connecting => true
  | SctpAssociationState.connecting, SctpAssociationState.connected => true
  | SctpAssociationState.connected, SctpAssociationState.disconnecting => true
  | SctpAssociationState.connecting, SctpAssociationState.disconnecting => true
  | SctpAssociationState.disconnecting, SctpAssociationState.disconnected => true
  | _, _ => false

/-- The spec table extended with the DISCONNECTED→ERROR edge that the
`start()` error path additionally exhibits (socket creation failing on a
restart attempt). -/
def extEdge (s t : SctpAssociationState) : Bool :=
  specEdge s t ||
    (s = SctpAssociationState.disconnected && t = SctpAssociationState.error)

/-- Whether all four configuration pieces are present: both ports non-zero
and both callbacks registered. -/
def configuredB (a : GstSctpAssociation) : Bool :=
  a.local_port ≠ 0 && a.remote_port ≠ 0 &&
    a.packet_out_cb ≠ none && a.packet_received_cb ≠ none

/-- The configuration mutations of the NEW→READY auto-promotion: port
writes and callback registrations. -/
def Op.isConfigOp : Op → Bool
  | Op.setLocalPort _ => true
  | Op.setRemotePort _ => true
  | Op.setOnPacketOut _ => true
  | Op.setOnPacketReceived _ => true
  | _ => false

/-- Whether a callback-registration operation carries an actual (non-NULL)
callback; true for every other operation. -/
def Op.cbNonNull : Op → Bool
  | Op.setOnPacketOut cb => cb ≠ none
  | Op.setOnPacketReceived cb => cb ≠ none
  | _ => true

/-- Number of NEW→READY transitions recorded in a trace. -/
def readyCount (tr : List Effect) : Nat :=
  (transOf tr).count
    (SctpAssociationState.new, SctpAssociationState.ready)

/-- Invariant of the configuration phase: the association is NEW and not
yet fully configured, or READY and fully configured. -/
def ConfigInv (a : GstSctpAssociation) : Prop :=
  (a.state = SctpAssociationState.new ∧ configuredB a = false) ∨
    (a.state = SctpAssociationState.ready ∧ configuredB a = true)

/-! Concrete associations used to witness the theorems below, obtained by
running explicit operation sequences from a fresh association. -/

/-- A freshly created association (state NEW). -/
def assoc0 : GstSctpAssociation := gst_sctp_association_init 1

/-- Full configuration: both ports non-zero, both callbacks registered. -/
def cfgOps : List Op :=
  [Op.setLocalPort 5000, Op.setRemotePort 5001,
    Op.setOnPacketOut (some 1), Op.setOnPacketReceived (some 2)]

/-- The association after full configuration (state READY). -/
def assocReady : GstSctpAssociation := (runOps assoc0 cfgOps).1

/-- After a successful `start()` (state CONNECTING, socket 7). -/
def assocConnecting : GstSctpAssociation :=
  (step assocReady (Op.startOp (some 7))).1

/-- After the worker finished and communication-up arrived
(state CONNECTED, engine association id 3). -/
def assocConnected : GstSctpAssociation :=
  (runOps assocConnecting
    [Op.workerFinish true true, Op.assocChanged (SctpAssocChange.commUp 3)]).1

/-- After a graceful `disconnect()` (state DISCONNECTED). -/
def assocDisconnected : GstSctpAssociation :=
  (step assocConnected Op.disconnectOp).1

/-- A non-denied stream-reset event naming stream 7 with the incoming
direction flag. -/
def srIncoming7 : SctpStreamResetEvent :=
  { strreset_flags := SCTP_STREAM_RESET_INCOMING_SSN
    strreset_length := sizeof_sctp_stream_reset_event + 2
    strreset_stream_list := [7] }

/-- The same event flagged denied. -/
def srDenied7 : SctpStreamResetEvent :=
  { srIncoming7 with
    strreset_flags :=
      SCTP_STREAM_RESET_INCOMING_SSN + SCTP_STREAM_RESET_DENIED }

/-! Helper lemmas. -/

theorem filterMap_some_map {α β : Type} (f : α → β) (l : List α) :
    l.filterMap (fun x => some (f x)) = l.map f := by
  induction l with
  | nil => rfl
  | cons x t ih => simp [List.filterMap_cons, ih]

theorem range_map_getD (l : List Nat) :
    (List.range l.length).map (fun i => l.getD i 0) = l := by
  induction l with
  | nil => simp
  | cons x t ih =>
      rw [List.length_cons, List.range_succ_eq_map, List.map_cons,
        List.map_map]
      simp only [Function.comp, List.getD_cons_zero, List.getD_cons_succ]
      exact congrArg (x :: ·) ih

theorem transOf_append (l1 l2 : List Effect) :
    transOf (l1 ++ l2) = transOf l1 ++ transOf l2 := by
  induction l1 with
  | nil => rfl
  | cons e t ih => cases e <;> simp [transOf, ih]

theorem readyCount_append (l1 l2 : List Effect) :
    readyCount (l1 ++ l2) = readyCount l1 + readyCount l2 := by
  simp [readyCount, transOf_append, List.count_append]

/-- Effect of one configuration mutation on the configuration-phase
invariant, the number of NEW→READY transitions it emits, and the
absorption of READY. -/
theorem config_step (a : GstSctpAssociation) (op : Op)
    (hc : op.isConfigOp = true) (hn : op.cbNonNull = true)
    (hI : ConfigInv a) :
    ConfigInv (step a op).1 ∧
    readyCount (step a op).2 =
      (if a.state = SctpAssociationState.new ∧
          (step a op).1.state = SctpAssociationState.ready then 1 else 0) ∧
    (a.state = SctpAssociationState.ready →
      (step a op).1.state = SctpAssociationState.ready) := by
  cases op <;> simp only [Op.isConfigOp] at hc <;>
    try exact absurd hc Bool.false_ne_true
  case setLocalPort p =>
    rcases hI with ⟨h1, h2⟩ | ⟨h1, h2⟩ <;>
      simp only [step, set_local_port, maybe_set_state_to_ready,
        gst_sctp_association_change_state_unlocked, h1] <;>
      split_ifs with hf <;>
      simp_all [ConfigInv, configuredB, readyCount, transOf]
  case setRemotePort p =>
    rcases hI with ⟨h1, h2⟩ | ⟨h1, h2⟩ <;>
      simp only [step, set_remote_port, maybe_set_state_to_ready,
        gst_sctp_association_change_state_unlocked, h1] <;>
      split_ifs with hf <;>
      simp_all [ConfigInv, configuredB, readyCount, transOf]
  case setOnPacketOut cb =>
    simp only [Op.cbNonNull] at hn
    rcases hI with ⟨h1, h2⟩ | ⟨h1, h2⟩ <;>
      simp only [step, gst_sctp_association_set_on_packet_out,
        maybe_set_state_to_ready,
        gst_sctp_association_change_state_unlocked, h1] <;>
      split_ifs with hf <;>
      simp_all [ConfigInv, configuredB, readyCount, transOf]
  case setOnPacketReceived cb =>
    simp only [Op.cbNonNull] at hn
    rcases hI with ⟨h1, h2⟩ | ⟨h1, h2⟩ <;>
      simp only [step, gst_sctp_association_set_on_packet_received,
        maybe_set_state_to_ready,
        gst_sctp_association_change_state_unlocked, h1] <;>
      split_ifs with hf <;>
      simp_all [ConfigInv, configuredB, readyCount, transOf]

/-- The configuration-phase invariant and transition count over a whole
sequence of configuration mutations. -/
theorem runConfig_inv (ops : List Op) (a : GstSctpAssociation)
    (h : ∀ op ∈ ops, op.isConfigOp = true ∧ op.cbNonNull = true)
    (hI : ConfigInv a) :
    ConfigInv (runOps a ops).1 ∧
    readyCount (runOps a ops).2 =
      (if a.state = SctpAssociationState.new ∧
          (runOps a ops).1.state = SctpAssociationState.ready then 1
        else 0) ∧
    (a.state = SctpAssociationState.ready →
      (runOps a ops).1.state = SctpAssociationState.ready) := by
  induction ops generalizing a with
  | nil =>
      refine ⟨hI, ?_, fun hr => hr⟩
      simp only [runOps, readyCount, transOf, List.count_nil]
      split_ifs with hif
      · rw [hif.1] at hif
        cases hif.2
      · rfl
  | cons op rest ih =>
      have hop := h op (List.mem_cons_self op rest)
      have hrest : ∀ o ∈ rest, o.isConfigOp = true ∧ o.cbNonNull = true :=
        fun o ho => h o (List.mem_cons_of_mem op ho)
      obtain ⟨i1, i2, i3⟩ := config_step a op hop.1 hop.2 hI
      obtain ⟨j1, j2, j3⟩ := ih (step a op).1 hrest i1
      have hrun : runOps a (op :: rest) =
          ((runOps (step a op).1 rest).1,
            (step a op).2 ++ (runOps (step a op).1 rest).2) := rfl
      rw [hrun]
      refine ⟨j1, ?_, ?_⟩
      · rw [readyCount_append, i2, j2]
        rcases hI with ⟨h1, _⟩ | ⟨h1, _⟩
        · rcases i1 with ⟨k1, _⟩ | ⟨k1, _⟩
          · simp [h1, k1]
          · have hfin := j3 k1
            simp [h1, k1, hfin]
        · have hr1 := i3 h1
          have hfin := j3 hr1
          simp [h1, hr1, hfin]
      · intro hr
        exact j3 (i3 hr)

/-! Claim theorems. -/

/-- Case analysis of the disconnect sequence: the three possibilities for
its state transitions and final state. -/
theorem disconnect_unlocked_cases (a : GstSctpAssociation) (ts : Bool) :
    (a.state = SctpAssociationState.connected ∧
      transOf (gst_sctp_association_disconnect_unlocked a ts).2 =
        [(SctpAssociationState.connected,
            SctpAssociationState.disconnecting),
          (SctpAssociationState.disconnecting,
            SctpAssociationState.disconnected)] ∧
      (gst_sctp_association_disconnect_unlocked a ts).1.state =
        SctpAssociationState.disconnected) ∨
    (a.state = SctpAssociationState.disconnecting ∧
      transOf (gst_sctp_association_disconnect_unlocked a ts).2 =
        [(SctpAssociationState.disconnecting,
            SctpAssociationState.disconnected)] ∧
      (gst_sctp_association_disconnect_unlocked a ts).1.state =
        SctpAssociationState.disconnected) ∨
    (a.state ≠ SctpAssociationState.connected ∧
      a.state ≠ SctpAssociationState.disconnecting ∧
      gst_sctp_association_disconnect_unlocked a ts = (a, [])) := by
  by_cases h1 : a.state = SctpAssociationState.connected
  · refine Or.inl ⟨h1, ?_⟩
    simp only [gst_sctp_association_disconnect_unlocked,
      gst_sctp_association_change_state_unlocked,
      gst_sctp_association_force_close_unlocked, h1]
    split_ifs <;> simp_all [transOf]
  · by_cases h2 : a.state = SctpAssociationState.disconnecting
    · refine Or.inr (Or.inl ⟨h2, ?_⟩)
      simp only [gst_sctp_association_disconnect_unlocked,
        gst_sctp_association_change_state_unlocked,
        gst_sctp_association_force_close_unlocked, h1, if_neg]
      split_ifs <;> simp_all [transOf]
    · refine Or.inr (Or.inr ⟨h1, h2, ?_⟩)
      simp [gst_sctp_association_disconnect_unlocked, h1, h2]

/-- A trace consisting only of stream-reset signals records no state
transition. -/
theorem transOf_stream_reset_signals (l : List Effect)
    (h : ∀ e ∈ l, ∃ sid, e = Effect.signalStreamReset sid) :
    transOf l = [] := by
  induction l with
  | nil => rfl
  | cons e t ih =>
      obtain ⟨sid, hsid⟩ := h e (List.mem_cons_self e t)
      subst hsid
      have ht := ih fun x hx => h x (List.mem_cons_of_mem _ hx)
      simp [transOf, ht]

/-- A filterMap producing only stream-reset signals records no state
transition. -/
theorem transOf_signal_filterMap (n : Nat) (g : Nat → Nat) :
    transOf ((List.range n).filterMap fun i =>
      some (Effect.signalStreamReset (g i))) = [] := by
  apply transOf_stream_reset_signals
  intro e he
  rcases List.mem_filterMap.mp he with ⟨i, _, hf⟩
  exact ⟨g i, (Option.some.injEq _ _ ▸ hf).symm⟩

theorem filterMap_const_none {α β : Type} (l : List α) :
    l.filterMap (fun _ => (none : Option β)) = [] := by
  induction l with
  | nil => rfl
  | cons x t ih => simp [List.filterMap_cons, ih]

/-- Claim C3: for every association whose state is not READY and not
DISCONNECTED, `gst_sctp_association_start` returns FALSE (the invalid-state
warning path) and has no side effects: the association — in particular its
`state`, socket handle and connection worker — is returned unchanged and no
effect is produced. -/
theorem C3_start_invalid_state (a : GstSctpAssociation) (sockRes : Option Nat)
    (h1 : a.state ≠ SctpAssociationState.ready)
    (h2 : a.state ≠ SctpAssociationState.disconnected) :
    gst_sctp_association_start a sockRes = ((a, []), false) := by
  simp [gst_sctp_association_start, h1, h2]

/-- Witness for C3 at the concrete CONNECTING association. -/
theorem C3_start_invalid_state_witness :
    gst_sctp_association_start assocConnecting (some 5) =
      ((assocConnecting, []), false) :=
  C3_start_invalid_state assocConnecting (some 5) (by decide) (by decide)

/-- Claim C4: for every association whose state is not CONNECTED,
`gst_sctp_association_send_data` — with any buffer length, stream id, ppid,
ordering flag, reliability policy, and engine outcome — returns FALSE,
produces no engine call (empty trace, so `usrsctp_sendv` is never reached),
and leaves the association unchanged. -/
theorem C4_send_data_not_connected (a : GstSctpAssociation)
    (length stream_id ppid : Nat) (ordered : Bool)
    (pr : PartialReliability) (reliability_param : Nat) (engineResult : Int)
    (h : a.state ≠ SctpAssociationState.connected) :
    gst_sctp_association_send_data a length stream_id ppid ordered pr
      reliability_param engineResult = ((a, []), false) := by
  simp [gst_sctp_association_send_data, h]

/-- Witness for C4 at the concrete READY association. -/
theorem C4_send_data_not_connected_witness :
    gst_sctp_association_send_data assocReady 100 3 51 true
      PartialReliability.prNone 0 100 = ((assocReady, []), false) :=
  C4_send_data_not_connected assocReady 100 3 51 true
    PartialReliability.prNone 0 100 (by decide)

/-- Claim C5: while `done_connect` is false every inbound wire packet is
silently discarded (no `usrsctp_conninput`, association unchanged); once
`done_connect` is true every inbound packet is forwarded into the engine. -/
theorem C5_incoming_packet_gated (a : GstSctpAssociation) (length : Nat) :
    (a.done_connect = false →
      gst_sctp_association_incoming_packet a length = (a, [])) ∧
    (a.done_connect = true →
      gst_sctp_association_incoming_packet a length =
        (a, [Effect.engineConninput length])) := by
  constructor <;> intro h <;>
    simp [gst_sctp_association_incoming_packet, h]

/-- Witness for C5: discarded before `start()`, forwarded once the worker
completed the connect attempt. -/
theorem C5_incoming_packet_gated_witness :
    gst_sctp_association_incoming_packet assocReady 64 = (assocReady, []) ∧
    gst_sctp_association_incoming_packet assocConnected 64 =
      (assocConnected, [Effect.engineConninput 64]) :=
  ⟨(C5_incoming_packet_gated assocReady 64).1 (by decide),
    (C5_incoming_packet_gated assocConnected 64).2 (by decide)⟩

/-- Claim C7: on a communication-up notification, a CONNECTING association
captures the engine association id, applies the aggressive-heartbeat engine
parameters exactly when the flag is set, and transitions to CONNECTED; in
any other state (including an already-CONNECTED duplicate) the notification
leaves the association unchanged and produces no effect. -/
theorem C7_comm_up (a : GstSctpAssociation) (sacId : Nat) :
    (a.state = SctpAssociationState.connecting →
      handle_sctp_comm_up a sacId =
        ({ a with
            sctp_assoc_id := sacId
            state := SctpAssociationState.connected },
          (if a.aggressive_heartbeat then
            [Effect.engineSetAssocMaxRxt sacId 1,
              Effect.engineSetHeartbeat 10]
          else []) ++
          [Effect.transition SctpAssociationState.connecting
            SctpAssociationState.connected])) ∧
    (a.state ≠ SctpAssociationState.connecting →
      handle_sctp_comm_up a sacId = (a, [])) := by
  constructor <;> intro h <;>
    simp [handle_sctp_comm_up, _apply_aggressive_heartbeat_unlocked,
      gst_sctp_association_change_state_unlocked, h]

/-- Witness for C7: the concrete CONNECTING association (aggressive
heartbeat off) reaches CONNECTED with the engine id captured, and the
duplicate notification on the CONNECTED association is ignored. -/
theorem C7_comm_up_witness :
    handle_sctp_comm_up assocConnecting 3 =
      ({ assocConnecting with
          sctp_assoc_id := 3
          state := SctpAssociationState.connected },
        [Effect.transition SctpAssociationState.connecting
          SctpAssociationState.connected]) ∧
    handle_sctp_comm_up assocConnected 9 = (assocConnected, []) := by
  refine ⟨?_, (C7_comm_up assocConnected 9).2 (by decide)⟩
  have h := (C7_comm_up assocConnecting 3).1 (by decide)
  simpa using h

/-- Claim C8: a stream-reset event that is not flagged denied raises exactly
one stream-reset signal per stream index listed in the event when the
direction flag marks an incoming (peer-initiated) reset — the emitted
signal list is exactly the listed stream indices — while an event flagged
denied raises no signal at all; the association itself is never modified. -/
theorem C8_stream_reset (a : GstSctpAssociation) (sr : SctpStreamResetEvent)
    (hlen : sr.strreset_length =
      sizeof_sctp_stream_reset_event + 2 * sr.strreset_stream_list.length) :
    (sr.strreset_flags &&& SCTP_STREAM_RESET_DENIED = 0 →
      sr.strreset_flags &&& SCTP_STREAM_RESET_INCOMING_SSN ≠ 0 →
      handle_stream_reset_event a sr =
        (a, sr.strreset_stream_list.map Effect.signalStreamReset)) ∧
    (sr.strreset_flags &&& SCTP_STREAM_RESET_DENIED ≠ 0 →
      handle_stream_reset_event a sr = (a, [])) := by
  constructor
  · intro hden hinc
    simp only [handle_stream_reset_event, hden, and_self, if_true, hlen,
      sizeof_sctp_stream_reset_event, if_pos]
    have hn : (12 + 2 * sr.strreset_stream_list.length - 12) / 2 =
        sr.strreset_stream_list.length := by omega
    rw [hn]
    have hcond : (fun i =>
        if sr.strreset_flags &&& SCTP_STREAM_RESET_INCOMING_SSN ≠ 0 then
          some (Effect.signalStreamReset (sr.strreset_stream_list.getD i 0))
        else none) =
        fun i => some (Effect.signalStreamReset
          (sr.strreset_stream_list.getD i 0)) := by
      funext i
      simp [hinc]
    rw [hcond, filterMap_some_map]
    rw [show (fun i => Effect.signalStreamReset
        (sr.strreset_stream_list.getD i 0)) =
      (Effect.signalStreamReset ∘ fun i => sr.strreset_stream_list.getD i 0)
      from rfl]
    rw [← List.map_map, range_map_getD]
  · intro hden
    simp [handle_stream_reset_event, hden]

/-- Witness for C8: the incoming-reset event naming stream 7 raises exactly
one stream-reset(7) signal; the denied variant raises none. -/
theorem C8_stream_reset_witness :
    handle_stream_reset_event assoc0 srIncoming7 =
      (assoc0, [Effect.signalStreamReset 7]) ∧
    handle_stream_reset_event assoc0 srDenied7 = (assoc0, []) :=
  ⟨(C8_stream_reset assoc0 srIncoming7 (by decide)).1 (by decide) (by decide),
    (C8_stream_reset assoc0 srDenied7 (by decide)).2 (by decide)⟩

/-- Claim C10: `gst_sctp_association_force_close` closes (engine close call
iff a socket was held) and nulls the socket handle and clears `done_connect`
and the engine association id, while leaving every other field — in
particular `state` — unchanged. -/
theorem C10_force_close (a : GstSctpAssociation) :
    gst_sctp_association_force_close a =
      ({ a with
          sctp_ass_sock := none
          done_connect := false
          sctp_assoc_id := 0 },
        if a.sctp_ass_sock = none then [] else [Effect.engineClose]) := by
  by_cases h : a.sctp_ass_sock = none <;>
    simp [gst_sctp_association_force_close,
      gst_sctp_association_force_close_unlocked, h]

/-- Claim C2 (amended): delivery of a communication-lost or
shutdown-complete notification to a CONNECTED association runs the
ungraceful disconnect sequence without any explicit `disconnect()` call —
it transitions through DISCONNECTING to DISCONNECTED, nulls the socket
handle, clears `done_connect` and the engine association id, and joins the
worker; delivered to a CONNECTING association, however, the notification is
a no-op: the guard of the disconnect routine (`state == CONNECTED`) does not
fire, so state, socket and `done_connect` are all left unchanged. -/
theorem C2_comm_lost_teardown (a : GstSctpAssociation) :
    (a.state = SctpAssociationState.connected →
      (handle_sctp_comm_lost_or_shutdown a).1 =
        { a with
            state := SctpAssociationState.disconnected
            connection_thread := false
            sctp_ass_sock := none
            done_connect := false
            sctp_assoc_id := 0 } ∧
      transOf (handle_sctp_comm_lost_or_shutdown a).2 =
        [(SctpAssociationState.connected,
            SctpAssociationState.disconnecting),
          (SctpAssociationState.disconnecting,
            SctpAssociationState.disconnected)]) ∧
    (a.state = SctpAssociationState.connecting →
      handle_sctp_comm_lost_or_shutdown a = (a, [])) := by
  constructor
  · intro h
    by_cases hs : a.sctp_ass_sock = none <;>
      simp [handle_sctp_comm_lost_or_shutdown,
        gst_sctp_association_disconnect_unlocked,
        gst_sctp_association_change_state_unlocked,
        gst_sctp_association_force_close_unlocked, transOf, h, hs]
  · intro h
    simp [handle_sctp_comm_lost_or_shutdown,
      gst_sctp_association_disconnect_unlocked, h]

/-- Witness for C2 (amended) at the concrete CONNECTED association. -/
theorem C2_comm_lost_teardown_witness :
    (handle_sctp_comm_lost_or_shutdown assocConnected).1 =
      { assocConnected with
          state := SctpAssociationState.disconnected
          connection_thread := false
          sctp_ass_sock := none
          done_connect := false
          sctp_assoc_id := 0 } ∧
    transOf (handle_sctp_comm_lost_or_shutdown assocConnected).2 =
      [(SctpAssociationState.connected, SctpAssociationState.disconnecting),
        (SctpAssociationState.disconnecting,
          SctpAssociationState.disconnected)] :=
  (C2_comm_lost_teardown assocConnected).1 (by decide)

/-- Counterexample to claim C2 as stated: the reachable CONNECTING
association (configured, started, worker still connecting) receives a
communication-lost notification and nothing happens — the state stays
CONNECTING instead of reaching DISCONNECTED, the socket handle stays
non-null, and no effect is produced. -/
theorem C2_counterexample :
    assocConnecting.state = SctpAssociationState.connecting ∧
    step assocConnecting (Op.assocChanged SctpAssocChange.commLost) =
      (assocConnecting, []) ∧
    assocConnecting.sctp_ass_sock = some 7 ∧
    assocConnecting.done_connect = false := by
  decide

/-- Claim C6: over any sequence of configuration mutations (port writes
and non-NULL callback registrations, in any interleaving) applied to a
fresh association, the NEW→READY transition fires at most once; it has
fired exactly once precisely when the association has left NEW for READY,
which happens precisely when both ports are non-zero and both callbacks
are registered (so leaving any of the four unset — or a port zero — keeps
the association in NEW, and repeating mutations after the transition never
fires it again). -/
theorem C6_ready_auto_promotion (ops : List Op)
    (h : ∀ op ∈ ops, op.isConfigOp = true ∧ op.cbNonNull = true) :
    ((runOps assoc0 ops).1.state = SctpAssociationState.new ∨
      (runOps assoc0 ops).1.state = SctpAssociationState.ready) ∧
    readyCount (runOps assoc0 ops).2 ≤ 1 ∧
    ((runOps assoc0 ops).1.state = SctpAssociationState.ready ↔
      readyCount (runOps assoc0 ops).2 = 1) ∧
    ((runOps assoc0 ops).1.state = SctpAssociationState.ready ↔
      configuredB (runOps assoc0 ops).1 = true) := by
  obtain ⟨i1, i2, i3⟩ := runConfig_inv ops assoc0 h
    (Or.inl ⟨by decide, by decide⟩)
  have hnew : assoc0.state = SctpAssociationState.new := by decide
  refine ⟨?_, ?_, ?_, ?_⟩
  · rcases i1 with ⟨k, _⟩ | ⟨k, _⟩
    · exact Or.inl k
    · exact Or.inr k
  · rw [i2]
    split_ifs <;> omega
  · rw [i2]
    constructor
    · intro hr
      simp [hnew, hr]
    · intro hcnt
      by_contra hr
      simp [hnew, hr] at hcnt
  · rcases i1 with ⟨k1, k2⟩ | ⟨k1, k2⟩
    · constructor
      · intro hr
        rw [k1] at hr
        cases hr
      · intro hcfg
        rw [k2] at hcfg
        cases hcfg
    · constructor
      · intro _
        exact k2
      · intro _
        exact k1

/-- Witness for C6: the four-mutation configuration sequence fires exactly
one NEW→READY transition and reaches READY fully configured. -/
theorem C6_ready_auto_promotion_witness :
    ((runOps assoc0 cfgOps).1.state = SctpAssociationState.new ∨
      (runOps assoc0 cfgOps).1.state = SctpAssociationState.ready) ∧
    readyCount (runOps assoc0 cfgOps).2 ≤ 1 ∧
    ((runOps assoc0 cfgOps).1.state = SctpAssociationState.ready ↔
      readyCount (runOps assoc0 cfgOps).2 = 1) ∧
    ((runOps assoc0 cfgOps).1.state = SctpAssociationState.ready ↔
      configuredB (runOps assoc0 cfgOps).1 = true) :=
  C6_ready_auto_promotion cfgOps (by decide)

/-- Claim C1 (amended): for every association and every single public
operation or engine notification other than a direct write of the `state`
property, the emitted state transitions — all of which come from the
state-transition routine — form a contiguous chain from the pre-state to
the post-state (so `state` does not change except through that routine),
and every transition taken is an edge of the spec §4.1 table extended with
DISCONNECTED→ERROR (socket-creation failure on a restart attempt); since
neither NEW→CONNECTED nor CONNECTED→NEW is such an edge, no such change
can occur. -/
theorem C1_state_transition_edges (a : GstSctpAssociation) (op : Op)
    (h : op.isSetStateProp = false) :
    chainB a.state (transOf (step a op).2) (step a op).1.state = true ∧
    ∀ p ∈ transOf (step a op).2, extEdge p.1 p.2 = true := by
  cases op
  case setAssociationId v =>
    simp [step, set_association_id, transOf, chainB]
  case setLocalPort p =>
    simp only [step, set_local_port, maybe_set_state_to_ready,
      gst_sctp_association_change_state_unlocked]
    split_ifs with h1 h2 <;>
      simp_all [transOf, chainB, extEdge, specEdge]
  case setRemotePort p =>
    simp only [step, set_remote_port, maybe_set_state_to_ready,
      gst_sctp_association_change_state_unlocked]
    split_ifs with h1 h2 <;>
      simp_all [transOf, chainB, extEdge, specEdge]
  case setStateProp s =>
    simp [Op.isSetStateProp] at h
  case setUseSockStream b =>
    simp [step, set_use_sock_stream, transOf, chainB]
  case setDebugSctp b =>
    simp [step, set_debug_sctp, transOf, chainB]
  case setAggressiveHeartbeat b =>
    simp [step, set_aggressive_heartbeat, transOf, chainB]
  case setOnPacketOut cb =>
    simp only [step, gst_sctp_association_set_on_packet_out,
      maybe_set_state_to_ready, gst_sctp_association_change_state_unlocked]
    split_ifs with h1 <;>
      simp_all [transOf, chainB, extEdge, specEdge]
  case setOnPacketReceived cb =>
    simp only [step, gst_sctp_association_set_on_packet_received,
      maybe_set_state_to_ready, gst_sctp_association_change_state_unlocked]
    split_ifs with h1 <;>
      simp_all [transOf, chainB, extEdge, specEdge]
  case startOp sockRes =>
    simp only [step, gst_sctp_association_start,
      gst_sctp_association_change_state_unlocked]
    by_cases h1 : a.state ≠ SctpAssociationState.ready ∧
        a.state ≠ SctpAssociationState.disconnected
    · cases sockRes <;> simp [h1, transOf, chainB]
    · have h2 : a.state = SctpAssociationState.ready ∨
          a.state = SctpAssociationState.disconnected := by
        by_cases hr : a.state = SctpAssociationState.ready
        · exact Or.inl hr
        · refine Or.inr ?_
          by_contra hd
          exact h1 ⟨hr, hd⟩
      cases sockRes <;> rcases h2 with h2 | h2 <;>
        simp [h2, transOf, chainB, extEdge, specEdge]
  case incomingPacket length =>
    simp only [step, gst_sctp_association_incoming_packet]
    split_ifs <;> simp [transOf, chainB]
  case sendData length sid ppid ord pr param res =>
    simp only [step, gst_sctp_association_send_data]
    split_ifs <;> simp [transOf, chainB]
  case resetStream sid =>
    simp only [step, gst_sctp_association_reset_stream]
    split_ifs <;> simp [transOf, chainB]
  case forceClose =>
    simp only [step, gst_sctp_association_force_close,
      gst_sctp_association_force_close_unlocked]
    split_ifs <;> simp [transOf, chainB]
  case disconnectOp =>
    have hd := disconnect_unlocked_cases a true
    simp only [step, gst_sctp_association_disconnect]
    rcases hd with ⟨h1, h2, h3⟩ | ⟨h1, h2, h3⟩ | ⟨h1, h2, h3⟩ <;>
      rw [h3] <;> try rw [h2]
    · simp [h1, chainB, extEdge, specEdge]
    · simp [h1, chainB, extEdge, specEdge]
    · simp [transOf, chainB]
  case assocChanged sac =>
    cases sac
    case commUp sacId =>
      simp only [step, handle_association_changed, handle_sctp_comm_up,
        _apply_aggressive_heartbeat_unlocked,
        gst_sctp_association_change_state_unlocked]
      split_ifs with h1 h2 <;>
        simp_all [transOf_append, transOf, chainB, extEdge, specEdge]
    case commLost =>
      have hd := disconnect_unlocked_cases a false
      simp only [step, handle_association_changed,
        handle_sctp_comm_lost_or_shutdown]
      rcases hd with ⟨h1, h2, h3⟩ | ⟨h1, h2, h3⟩ | ⟨h1, h2, h3⟩ <;>
        rw [h3] <;> try rw [h2]
      · simp [h1, chainB, extEdge, specEdge]
      · simp [h1, chainB, extEdge, specEdge]
      · simp [transOf, chainB]
    case sacRestart =>
      simp [step, handle_association_changed, transOf, chainB]
    case shutdownComp =>
      have hd := disconnect_unlocked_cases a false
      simp only [step, handle_association_changed,
        handle_sctp_comm_lost_or_shutdown]
      rcases hd with ⟨h1, h2, h3⟩ | ⟨h1, h2, h3⟩ | ⟨h1, h2, h3⟩ <;>
        rw [h3] <;> try rw [h2]
      · simp [h1, chainB, extEdge, specEdge]
      · simp [h1, chainB, extEdge, specEdge]
      · simp [transOf, chainB]
    case cantStrAssoc =>
      simp [step, handle_association_changed, transOf, chainB]
  case streamResetEvent sr =>
    simp only [step, handle_stream_reset_event]
    split_ifs with h1 h2
    · rw [transOf_signal_filterMap]
      simp [chainB]
    · rw [filterMap_const_none]
      simp [transOf, chainB]
    · simp [transOf, chainB]
  case nullDataDelivery =>
    simp [step, receive_cb_null_data, transOf, chainB]
  case messageDelivery datalen sid ppid =>
    simp only [step, handle_message]
    split_ifs <;> simp [transOf, chainB]
  case workerFinish bindOk connectOk =>
    simp only [step, client_role_connect]
    split_ifs <;> simp [transOf, chainB]

/-- Witness for C1 (amended): the graceful disconnect of the concrete
CONNECTED association chains CONNECTED→DISCONNECTING→DISCONNECTED along
table edges. -/
theorem C1_state_transition_edges_witness :
    Op.disconnectOp.isSetStateProp = false ∧
    (chainB assocConnected.state
        (transOf (step assocConnected Op.disconnectOp).2)
        (step assocConnected Op.disconnectOp).1.state = true ∧
      ∀ p ∈ transOf (step assocConnected Op.disconnectOp).2,
        extEdge p.1 p.2 = true) :=
  ⟨by decide,
    C1_state_transition_edges assocConnected Op.disconnectOp (by decide)⟩

/-- Counterexample to claim C1 as stated: (i) writing the READWRITE `state`
property jumps a fresh association directly from NEW to CONNECTED — a
reachable direct NEW→CONNECTED change that bypasses the state-transition
routine (no transition effect is emitted) and is not an edge of the §4.1
table; (ii) `start()` on the reachable DISCONNECTED association with
socket creation failing performs a DISCONNECTED→ERROR transition, which is
also not an edge of the §4.1 table. -/
theorem C1_counterexample :
    (assoc0.state = SctpAssociationState.new ∧
      (step assoc0
        (Op.setStateProp SctpAssociationState.connected)).1.state =
        SctpAssociationState.connected ∧
      transOf (step assoc0
        (Op.setStateProp SctpAssociationState.connected)).2 = [] ∧
      specEdge SctpAssociationState.new SctpAssociationState.connected =
        false) ∧
    (assocDisconnected.state = SctpAssociationState.disconnected ∧
      transOf (step assocDisconnected (Op.startOp none)).2 =
        [(SctpAssociationState.disconnected, SctpAssociationState.error)] ∧
      specEdge SctpAssociationState.disconnected SctpAssociationState.error =
        false) := by
  decide

/-- Claim C9 (amended): apart from direct writes of the `state` property,
ERROR is entered only by a `start()` whose socket creation fails, attempted
from READY or from DISCONNECTED (the restart path) — and, apart from such
direct property writes, an association in ERROR stays in ERROR under every
operation and notification. -/
theorem C9_error_terminal (a : GstSctpAssociation) (op : Op)
    (h : op.isSetStateProp = false) :
    ((step a op).1.state = SctpAssociationState.error →
      a.state = SctpAssociationState.error ∨
        (op = Op.startOp none ∧
          (a.state = SctpAssociationState.ready ∨
            a.state = SctpAssociationState.disconnected))) ∧
    (a.state = SctpAssociationState.error →
      (step a op).1.state = SctpAssociationState.error) := by
  cases op
  case setAssociationId v =>
    simp [step, set_association_id]
  case setLocalPort p =>
    simp only [step, set_local_port, maybe_set_state_to_ready,
      gst_sctp_association_change_state_unlocked]
    split_ifs <;> constructor <;> intro he <;> simp_all
  case setRemotePort p =>
    simp only [step, set_remote_port, maybe_set_state_to_ready,
      gst_sctp_association_change_state_unlocked]
    split_ifs <;> constructor <;> intro he <;> simp_all
  case setStateProp s =>
    simp [Op.isSetStateProp] at h
  case setUseSockStream b =>
    simp [step, set_use_sock_stream]
  case setDebugSctp b =>
    simp [step, set_debug_sctp]
  case setAggressiveHeartbeat b =>
    simp [step, set_aggressive_heartbeat]
  case setOnPacketOut cb =>
    simp only [step, gst_sctp_association_set_on_packet_out,
      maybe_set_state_to_ready, gst_sctp_association_change_state_unlocked]
    split_ifs <;> constructor <;> intro he <;> simp_all
  case setOnPacketReceived cb =>
    simp only [step, gst_sctp_association_set_on_packet_received,
      maybe_set_state_to_ready, gst_sctp_association_change_state_unlocked]
    split_ifs <;> constructor <;> intro he <;> simp_all
  case startOp sockRes =>
    simp only [step, gst_sctp_association_start,
      gst_sctp_association_change_state_unlocked]
    by_cases h1 : a.state ≠ SctpAssociationState.ready ∧
        a.state ≠ SctpAssociationState.disconnected
    · cases sockRes <;> simp [h1]
    · have h2 : a.state = SctpAssociationState.ready ∨
          a.state = SctpAssociationState.disconnected := by
        by_cases hr : a.state = SctpAssociationState.ready
        · exact Or.inl hr
        · refine Or.inr ?_
          by_contra hd
          exact h1 ⟨hr, hd⟩
      cases sockRes <;> rcases h2 with h2 | h2 <;> simp [h2]
  case incomingPacket length =>
    simp only [step, gst_sctp_association_incoming_packet]
    split_ifs <;> simp
  case sendData length sid ppid ord pr param res =>
    simp only [step, gst_sctp_association_send_data]
    split_ifs <;> simp
  case resetStream sid =>
    simp only [step, gst_sctp_association_reset_stream]
    split_ifs <;> simp
  case forceClose =>
    simp only [step, gst_sctp_association_force_close,
      gst_sctp_association_force_close_unlocked]
    split_ifs <;> simp
  case disconnectOp =>
    have hd := disconnect_unlocked_cases a true
    simp only [step, gst_sctp_association_disconnect]
    rcases hd with ⟨h1, _, h3⟩ | ⟨h1, _, h3⟩ | ⟨h1, h2, h3⟩ <;>
      rw [h3] <;> simp_all
  case assocChanged sac =>
    cases sac
    case commUp sacId =>
      simp only [step, handle_association_changed, handle_sctp_comm_up,
        _apply_aggressive_heartbeat_unlocked,
        gst_sctp_association_change_state_unlocked]
      split_ifs <;> constructor <;> intro he <;> simp_all
    case commLost =>
      have hd := disconnect_unlocked_cases a false
      simp only [step, handle_association_changed,
        handle_sctp_comm_lost_or_shutdown]
      rcases hd with ⟨h1, _, h3⟩ | ⟨h1, _, h3⟩ | ⟨h1, h2, h3⟩ <;>
        rw [h3] <;> simp_all
    case sacRestart =>
      simp [step, handle_association_changed]
    case shutdownComp =>
      have hd := disconnect_unlocked_cases a false
      simp only [step, handle_association_changed,
        handle_sctp_comm_lost_or_shutdown]
      rcases hd with ⟨h1, _, h3⟩ | ⟨h1, _, h3⟩ | ⟨h1, h2, h3⟩ <;>
        rw [h3] <;> simp_all
    case cantStrAssoc =>
      simp [step, handle_association_changed]
  case streamResetEvent sr =>
    simp only [step, handle_stream_reset_event]
    split_ifs <;> simp
  case nullDataDelivery =>
    simp [step, receive_cb_null_data]
  case messageDelivery datalen sid ppid =>
    simp only [step, handle_message]
    split_ifs <;> simp
  case workerFinish bindOk connectOk =>
    simp only [step, client_role_connect]
    split_ifs <;> simp

/-- Witness for C9 (amended): a failing restart from the concrete
DISCONNECTED association enters ERROR via the `start()` error path. -/
theorem C9_error_terminal_witness :
    (Op.startOp none).isSetStateProp = false ∧
    ((step assocDisconnected (Op.startOp none)).1.state =
        SctpAssociationState.error →
      assocDisconnected.state = SctpAssociationState.error ∨
        (Op.startOp none = Op.startOp none ∧
          (assocDisconnected.state = SctpAssociationState.ready ∨
            assocDisconnected.state = SctpAssociationState.disconnected))) ∧
    (assocDisconnected.state = SctpAssociationState.error →
      (step assocDisconnected (Op.startOp none)).1.state =
        SctpAssociationState.error) :=
  ⟨by decide,
    (C9_error_terminal assocDisconnected (Op.startOp none) (by decide)).1,
    (C9_error_terminal assocDisconnected (Op.startOp none) (by decide)).2⟩

/-- Counterexample to claim C9 as stated: ERROR is also reachable from
DISCONNECTED — the reachable DISCONNECTED association, on a `start()`
whose socket creation fails, moves into ERROR although its state was not
READY; moreover a direct write of the `state` property moves a fresh NEW
association into ERROR without any `start()` at all. -/
theorem C9_counterexample :
    (assocDisconnected.state = SctpAssociationState.disconnected ∧
      (step assocDisconnected (Op.startOp none)).1.state =
        SctpAssociationState.error) ∧
    (assoc0.state = SctpAssociationState.new ∧
      (step assoc0 (Op.setStateProp SctpAssociationState.error)).1.state =
        SctpAssociationState.error) := by
  decide

end SctpAssociation
